import Mathlib

/-!
# Verification of the retail-pipeline ETL script

A shallow embedding of `src/main.py` (a linear pandas ETL pipeline:
load → clean → validate → persist) together with proofs of the
specification's testable properties.

Modelling conventions:
* A pandas `DataFrame` is a header of named, dtyped columns plus a
  row-major list of cell lists.
* Cell values (`Value`) are missing (`na`, covering NaN/NaT/None),
  64-bit integers (as `Int`), floats (as `Rat`), strings, or parsed
  dates.
* Exceptions are `Except String`; logging is returned as a list of
  warning strings where a claim needs it.
* External effects (dataset download, database connectivity, SQL
  execution) are injected as explicit parameters / result values, and
  the Persister's SQL activity is recorded as a trace of `DbOp`s.
-/

/-- Pandas dtypes that occur in this pipeline. -/
inductive Dtype
  | int64
  | float64
  | datetime64
  | object
deriving DecidableEq, Repr

/-- A calendar date (what a parsed `datetime64` cell carries here). -/
structure Date where
  year : Nat
  month : Nat
  day : Nat
deriving DecidableEq, Repr

/-- A single cell of a DataFrame. `na` covers NaN/NaT/None. -/
inductive Value
  | na
  | int (n : Int)
  | float (q : Rat)
  | str (s : String)
  | date (d : Date)
deriving DecidableEq, Repr

instance : Inhabited Value := ⟨Value.na⟩

/-- A column descriptor: its (normalized) name and pandas dtype. -/
structure Col where
  name : String
  dtype : Dtype
deriving DecidableEq, Repr

instance : Inhabited Col := ⟨⟨"", Dtype.object⟩⟩

/-- A pandas DataFrame: named/dtyped columns and row-major cells.
Rows are rectangular in real pandas; rectangularity is taken as a
hypothesis where a proof needs it. -/
structure DataFrame where
  header : List Col
  rows : List (List Value)
deriving DecidableEq, Repr

/-- Index of the first column with the given name in a header. -/
def colIdxH (hdr : List Col) (name : String) : Option Nat :=
  match hdr with
  | [] => none
  | c :: t => if c.name == name then some 0 else (colIdxH t name).map (· + 1)

/-- Index of the first column with the given (already normalized) name,
as pandas column lookup `df[name]` resolves it. -/
def colIdx (df : DataFrame) (name : String) : Option Nat :=
  colIdxH df.header name

/-- The dtype of the first column with the given name. -/
def colDtype (df : DataFrame) (name : String) : Option Dtype :=
  (df.header.find? (fun c => c.name == name)).map Col.dtype

/-- The cells of the named column, top to bottom (empty when absent). -/
def colCells (df : DataFrame) (name : String) : List Value :=
  match colIdx df name with
  | some i => df.rows.map (fun r => r.getD i Value.na)
  | none => []

/-! ## Date parsing (Loader)

`load_and_clean_data` parses the `date` column with
`pd.to_datetime(df['date'], format="%d-%m-%Y")` and falls back to
`pd.to_datetime(df['date'], dayfirst=True, errors='coerce')`.
The two parse functions below model those two paths for the dashed
numeric day/month/year date strings this dataset contains. -/

/-- Gregorian leap year. -/
def isLeap (y : Nat) : Bool :=
  (y % 4 == 0 && y % 100 != 0) || (y % 400 == 0)

/-- Days in a month of a given year. -/
def daysInMonth (y m : Nat) : Nat :=
  if m = 2 then (if isLeap y then 29 else 28)
  else if m = 4 || m = 6 || m = 9 || m = 11 then 30
  else 31

/-- Whether day `d`, month `m`, year `y` form a real calendar date. -/
def validDMY (d m y : Nat) : Bool :=
  1 ≤ m && m ≤ 12 && 1 ≤ d && d ≤ daysInMonth y m

/-- Split a character list at dashes (kernel-reducible counterpart of
`String.splitOn "-"`, specialised to the one delimiter this pipeline
uses). `acc` is the current fragment, reversed. -/
def splitDashAux : List Char → List Char → List (List Char)
  | [], acc => [acc.reverse]
  | c :: rest, acc =>
    if c = '-' then acc.reverse :: splitDashAux rest []
    else splitDashAux rest (c :: acc)

/-- Split at dashes: `splitDash "01-03-2024".data` is
`[['0','1'], ['0','3'], ['2','0','2','4']]`. -/
def splitDash (cs : List Char) : List (List Char) :=
  splitDashAux cs []

/-- Nonempty all-digit fragment. -/
def allDigits (cs : List Char) : Bool :=
  !cs.isEmpty && cs.all Char.isDigit

/-- Decimal value of an all-digit fragment. -/
def digitsToNat (cs : List Char) : Nat :=
  cs.foldl (fun n c => n * 10 + (c.toNat - '0'.toNat)) 0

/-- Strict parse path: `strptime`-style `%d-%m-%Y` (day, month, 4-digit
year, dashes; `%d`/`%m` accept one or two digits). `none` models a
raised `ValueError`. -/
def parseStrictDMY (s : String) : Option Date :=
  match splitDash s.data with
  | [ds, ms, ys] =>
    if allDigits ds && ds.length ≤ 2 && allDigits ms && ms.length ≤ 2
        && allDigits ys && ys.length ≤ 4 then
      let d := digitsToNat ds
      let m := digitsToNat ms
      let y := digitsToNat ys
      if validDMY d m y then some ⟨y, m, d⟩ else none
    else none
  | _ => none

/-- Lenient fallback path: `dayfirst=True` parsing of a dashed numeric
triple — prefer day-month-year, fall back to month-day-year when the
day-first reading is not a real date; `none` models coercion to `NaT`. -/
def parseDayfirst (s : String) : Option Date :=
  match splitDash s.data with
  | [as, bs, cs] =>
    if allDigits as && allDigits bs && allDigits cs then
      let a := digitsToNat as
      let b := digitsToNat bs
      let c := digitsToNat cs
      if validDMY a b c then some ⟨c, b, a⟩
      else if validDMY b a c then some ⟨c, a, b⟩
      else none
    else none
  | _ => none

/-- One cell through the strict path: NaN passes through as NaT,
a string must parse, anything else raises (`none` = raise). -/
def cellStrictParse : Value → Option Value
  | Value.na => some Value.na
  | Value.str s => (parseStrictDMY s).map Value.date
  | _ => none

/-- One cell through the lenient path: unparseable values become
missing (`errors='coerce'`) instead of raising. -/
def cellCoerceParse : Value → Value
  | Value.na => Value.na
  | Value.str s =>
    match parseDayfirst s with
    | some d => Value.date d
    | none => Value.na
  | Value.date d => Value.date d
  | _ => Value.na

/-! ## Loader/Cleaner: `load_and_clean_data` -/

/-- Lower-case an ASCII letter (`str.lower()`). -/
def lowerChar (c : Char) : Char :=
  if 'A' ≤ c && c ≤ 'Z' then Char.ofNat (c.toNat + 32) else c

/-- Normalization of one column name: `str.lower()` then
`str.replace(' ', '_')`. -/
def normalizeName (s : String) : String :=
  ⟨(s.data.map lowerChar).map (fun c => if c = ' ' then '_' else c)⟩

/-- Normalize every column name (line 79 of `main.py`). -/
def normalizeColumns (df : DataFrame) : DataFrame :=
  ⟨df.header.map (fun c => ⟨normalizeName c.name, c.dtype⟩), df.rows⟩

/-- Replace the dtype recorded at index `i` of a header (what assigning
a parsed column back to `df['date']` does to the dtype). -/
def setDtypeAt (hdr : List Col) (i : Nat) (dt : Dtype) : List Col :=
  hdr.set i ⟨(hdr.getD i default).name, dt⟩

/-- Lines 81–85: parse the `date` column, strict `%d-%m-%Y` first; if
any cell fails the strict parse (the raised `ValueError`), redo the
whole column with the lenient `dayfirst=True, errors='coerce'` parse.
Either way the column's dtype becomes `datetime64`. A missing `date`
column is a `KeyError` caught and re-raised by the outer handler. -/
def parseDateColumn (df : DataFrame) : Except String DataFrame :=
  match colIdx df "date" with
  | none => Except.error "Error loading or cleaning data: date"
  | some i =>
    if (df.rows.map (fun r => r.getD i Value.na)).all
        (fun v => (cellStrictParse v).isSome) then
      Except.ok ⟨setDtypeAt df.header i Dtype.datetime64,
        df.rows.map (fun r =>
          r.set i ((cellStrictParse (r.getD i Value.na)).getD Value.na))⟩
    else
      Except.ok ⟨setDtypeAt df.header i Dtype.datetime64,
        df.rows.map (fun r => r.set i (cellCoerceParse (r.getD i Value.na)))⟩

/-- The strict path's per-cell result once the whole column is known to
parse (every cell's `cellStrictParse` is `some`). -/
def strictCell (v : Value) : Value :=
  (cellStrictParse v).getD Value.na

/-- Membership in `select_dtypes(include=['float64', 'int64'])`. -/
def isNumericDtype : Dtype → Bool
  | Dtype.int64 => true
  | Dtype.float64 => true
  | _ => false

/-- The zero that `fillna(0)` writes into a column of this dtype. -/
def zeroOf : Dtype → Value
  | Dtype.int64 => Value.int 0
  | _ => Value.float 0

/-- Effect of `fillna(0)` on one cell of a column with dtype `dt`. -/
def fillCell (dt : Dtype) (v : Value) : Value :=
  if isNumericDtype dt && v == Value.na then zeroOf dt else v

/-- Effect of `fillna(0)` across one row: each cell is filled
according to its column's dtype. -/
def fillRow (hdr : List Col) (r : List Value) : List Value :=
  List.zipWith (fun c v => fillCell c.dtype v) hdr r

/-- Lines 87–88: `df[numeric_columns] = df[numeric_columns].fillna(0)`. -/
def fillNumericNa (df : DataFrame) : DataFrame :=
  ⟨df.header, df.rows.map (fillRow df.header)⟩

/-- Whether a row's `date` cell (at column index `i`) is missing. -/
def rowDateMissing (i : Nat) (r : List Value) : Bool :=
  r.getD i Value.na == Value.na

/-- Lines 90–93: count rows with a missing `date`; when the count is
positive, `df = df.dropna(subset=['date'])`. -/
def dropMissingDates (df : DataFrame) : Except String DataFrame :=
  match colIdx df "date" with
  | none => Except.error "Error loading or cleaning data: date"
  | some i =>
    let nullDates := (df.rows.filter (fun r => rowDateMissing i r)).length
    if nullDates > 0 then
      Except.ok ⟨df.header, df.rows.filter (fun r => !rowDateMissing i r)⟩
    else
      Except.ok df

/-- The function `load_and_clean_data`, applied to the record batch `pd.read_csv`
produced (the CSV read itself is an external effect and is injected as
the argument): normalize names, parse `date`, fill numeric columns,
drop rows with missing dates. -/
def load_and_clean_data (df0 : DataFrame) : Except String DataFrame :=
  match parseDateColumn (normalizeColumns df0) with
  | Except.error e => Except.error e
  | Except.ok df2 => dropMissingDates (fillNumericNa df2)

/-! ## Validator: `validate_data` -/

/-- The required columns (line 103 of `main.py`). -/
def requiredColumns : List String := ["store_number", "date", "weekly_sales"]

/-- Structured content of the two warnings `validate_data` can log
(`"Found {n} negative sales values"`, `"Found {n} future dates in the
dataset"`). -/
inductive LogWarning
  | negativeSales (count : Nat)
  | futureDates (count : Nat)
deriving DecidableEq, Repr

/-- Strict calendar order on dates. -/
def dateLtB (a b : Date) : Bool :=
  decide (a.year < b.year)
    || (a.year == b.year
        && (decide (a.month < b.month)
            || (a.month == b.month && decide (a.day < b.day))))

/-- One cell of `df['date'] > datetime.now()` (NaT compares false). -/
def dateGtNow (now : Date) : Value → Bool
  | Value.date d => dateLtB now d
  | _ => false

/-- One cell of `df['store_number'] <= 0` on an integer column. -/
def valueLeZeroInt : Value → Bool
  | Value.int n => decide (n ≤ 0)
  | _ => false

/-- Whether pandas can compare this cell with `0` (numbers and NaN
compare; a string or datetime cell makes `< 0` raise a `TypeError`). -/
def comparableToZero : Value → Bool
  | Value.na => true
  | Value.int _ => true
  | Value.float _ => true
  | _ => false

/-- The cell's `< 0` result where defined (`NaN < 0` is `False`). -/
def ltZeroBool : Value → Bool
  | Value.int n => decide (n < 0)
  | Value.float q => decide (q < 0)
  | _ => false

/-- Comparison `df['weekly_sales'] < 0` across a column: counts the negative
cells, raising (as pandas does) when some cell does not support the
comparison. -/
def countLtZero : List Value → Except String Nat
  | [] => Except.ok 0
  | v :: vs =>
    if comparableToZero v then
      match countLtZero vs with
      | Except.ok n => Except.ok (if ltZeroBool v then n + 1 else n)
      | Except.error e => Except.error e
    else Except.error "TypeError: comparison not supported"

/-- Lines 100–126: validation. Fatal (raised) checks in order: required
columns present, `date` of datetime dtype, `store_number` of integer
dtype (`dtype.kind in 'ui'`), every `store_number` positive. Negative
`weekly_sales` and future dates are only logged; the returned list
carries those warnings. -/
def validate_data (df : DataFrame) (now : Date) : Except String (List LogWarning) :=
  if !(requiredColumns.filter
      (fun c => !(df.header.any (fun col => col.name == c)))).isEmpty then
    Except.error "Missing required columns"
  else if !(colDtype df "date" == some Dtype.datetime64) then
    Except.error "Date column is not in datetime format"
  else if !(colDtype df "store_number" == some Dtype.int64) then
    Except.error "Store numbers must be integers"
  else if (colCells df "store_number").any valueLeZeroInt then
    Except.error "Store numbers must be positive"
  else
    match countLtZero (colCells df "weekly_sales") with
    | Except.error e => Except.error e
    | Except.ok negCount =>
      Except.ok
        ((if negCount > 0 then [LogWarning.negativeSales negCount] else [])
          ++ (if ((colCells df "date").filter (dateGtNow now)).length > 0 then
                [LogWarning.futureDates
                  ((colCells df "date").filter (dateGtNow now)).length]
              else []))

/-! ## Persister: `save_to_database`

The SQL side effects are recorded as a trace of `DbOp`s; which database
operation (if any) raises is injected through `DbFail`. -/

/-- One SQL-level operation the Persister performs. -/
inductive DbOp
  | createSchema (schema : String)
  | writeTable (schema table : String) (df : DataFrame)
  | hasTable (schema table : String)
  | countRows (schema table : String)
deriving DecidableEq, Repr

/-- Which Persister step the injected database failure hits (`ok` =
none; the write, the table-existence check coming back false, or the
row-count query). -/
inductive DbFail
  | ok
  | atSchema
  | atWrite
  | tableMissing
  | atCount
deriving DecidableEq, Repr

/-- The schema identifier an operation addresses. -/
def DbOp.schemaOf : DbOp → String
  | DbOp.createSchema s => s
  | DbOp.writeTable s _ _ => s
  | DbOp.hasTable s _ => s
  | DbOp.countRows s _ => s

/-- Whether the operation is the schema-creation statement. -/
def DbOp.isCreateSchema : DbOp → Bool
  | DbOp.createSchema _ => true
  | _ => false

/-- Result of a `save_to_database` call: the dataframe as the caller
sees it afterwards (the function mutates its argument in place), the
trace of database operations attempted, and the raised/returned
outcome. -/
structure SaveResult where
  df : DataFrame
  ops : List DbOp
  result : Except String Unit
deriving Repr

/-- Assignment `df[name] = scalar`: overwrite the column when it exists, else
append it broadcasting the scalar to every row. -/
def addColumn (df : DataFrame) (name : String) (dt : Dtype) (v : Value) : DataFrame :=
  match colIdx df name with
  | some i => ⟨setDtypeAt df.header i dt, df.rows.map (fun r => r.set i v)⟩
  | none => ⟨df.header ++ [⟨name, dt⟩], df.rows.map (fun r => r ++ [v])⟩

/-- Lines 135–136: `df['loaded_at'] = datetime.now()` and
`df['source_file'] = os.getenv('INPUT_FILE')` (the latter is `None`
when unset). -/
def stampProvenance (df : DataFrame) (now : Date) (src : Option String) : DataFrame :=
  addColumn (addColumn df "loaded_at" Dtype.datetime64 (Value.date now))
    "source_file" Dtype.object
    (match src with
     | some s => Value.str s
     | none => Value.na)

/-- Lines 128–158: `CREATE SCHEMA IF NOT EXISTS retail_db_db`, stamp
the provenance columns on the argument dataframe, `to_sql` into schema
`retail_db` with replace semantics, check the table exists in
`retail_db`, and count its rows. A failure at any step raises and cuts
the trace there; the provenance mutation has already happened for every
failure after the schema step. -/
def save_to_database (df : DataFrame) (tableName : String) (now : Date)
    (src : Option String) (fail : DbFail) : SaveResult :=
  if fail = DbFail.atSchema then
    ⟨df, [DbOp.createSchema "retail_db_db"],
      Except.error "Failed to save data to database"⟩
  else
    let df2 := stampProvenance df now src
    if fail = DbFail.atWrite then
      ⟨df2, [DbOp.createSchema "retail_db_db",
             DbOp.writeTable "retail_db" tableName df2],
        Except.error "Failed to save data to database"⟩
    else if fail = DbFail.tableMissing then
      ⟨df2, [DbOp.createSchema "retail_db_db",
             DbOp.writeTable "retail_db" tableName df2,
             DbOp.hasTable "retail_db" tableName],
        Except.error "Table was not created successfully"⟩
    else if fail = DbFail.atCount then
      ⟨df2, [DbOp.createSchema "retail_db_db",
             DbOp.writeTable "retail_db" tableName df2,
             DbOp.hasTable "retail_db" tableName,
             DbOp.countRows "retail_db" tableName],
        Except.error "Failed to save data to database"⟩
    else
      ⟨df2, [DbOp.createSchema "retail_db_db",
             DbOp.writeTable "retail_db" tableName df2,
             DbOp.hasTable "retail_db" tableName,
             DbOp.countRows "retail_db" tableName],
        Except.ok ()⟩

/-! ## Configuration and engine: `load_environment`, `create_db_engine` -/

/-- The six required environment variables (lines 26–33). -/
def requiredVarNames : List String :=
  ["DB_HOST", "DB_USER", "DB_PASSWORD", "DB_NAME", "DB_PORT", "INPUT_FILE"]

/-- Lookup of `os.getenv` over an explicit environment. -/
def lookupEnv (env : List (String × String)) (k : String) : Option String :=
  (env.find? (fun kv => kv.1 == k)).map (fun kv => kv.2)

/-- Python falsiness of `os.getenv`'s result: `None` or `""`. -/
def falsy : Option String → Bool
  | none => true
  | some s => s.data.isEmpty

/-- Lines 22–39: read the six variables, collect every one bound to a
falsy value, raise naming them all (the error carries the list), else
return the full map. -/
def load_environment (env : List (String × String)) :
    Except (List String) (List (String × Option String)) :=
  let required_vars := requiredVarNames.map (fun k => (k, lookupEnv env k))
  let missing_vars := (required_vars.filter (fun kv => falsy kv.2)).map (fun kv => kv.1)
  if !missing_vars.isEmpty then Except.error missing_vars
  else Except.ok required_vars

/-- Lines 41–72: check the five connection variables are present in the
map, then build the engine and probe it with `SELECT 1`; the probe's
outcome is injected (`connectResult`) since it is an external effect. -/
def create_db_engine (envVars : List (String × Option String))
    (connectResult : Except String Unit) : Except String Unit :=
  if !((["DB_HOST", "DB_USER", "DB_PASSWORD", "DB_NAME", "DB_PORT"].filter
      (fun v => !(envVars.any (fun kv => kv.1 == v)))).isEmpty) then
    Except.error "Missing required environment variables"
  else connectResult

/-! ## The pipeline: `main` -/

/-- Everything external a run consumes: the process environment, the
dataset-download outcome, the connection probe's outcome, the result of
reading the input CSV, where (if anywhere) the database fails, and the
current time. -/
structure RunEnv where
  env : List (String × String)
  downloadResult : Except String String
  connectResult : Except String Unit
  csv : Except String DataFrame
  dbFail : DbFail
  now : Date

/-- Observable outcome of one `main()` run. -/
structure MainResult where
  outcome : Except String Unit
  engineAcquired : Bool
  engineDisposed : Bool
  persistInvoked : Bool
  finalDf : Option DataFrame
  dbOps : List DbOp
deriving Repr

/-- Lines 160–190: the pipeline. Each step's failure propagates; the
`finally` block disposes the engine whenever `engine is not None`,
i.e. whenever `create_db_engine` returned. -/
def mainRun (re : RunEnv) : MainResult :=
  match load_environment re.env with
  | Except.error _ =>
    ⟨Except.error "Missing required environment variables",
      false, false, false, none, []⟩
  | Except.ok envVars =>
    match re.downloadResult with
    | Except.error e => ⟨Except.error e, false, false, false, none, []⟩
    | Except.ok _ =>
      match create_db_engine envVars re.connectResult with
      | Except.error e => ⟨Except.error e, false, false, false, none, []⟩
      | Except.ok _ =>
        match re.csv with
        | Except.error e => ⟨Except.error e, true, true, false, none, []⟩
        | Except.ok raw =>
          match load_and_clean_data raw with
          | Except.error e => ⟨Except.error e, true, true, false, none, []⟩
          | Except.ok df =>
            match validate_data df re.now with
            | Except.error e => ⟨Except.error e, true, true, false, some df, []⟩
            | Except.ok _ =>
              match save_to_database df "best_buy_sales" re.now
                  (lookupEnv re.env "INPUT_FILE") re.dbFail with
              | ⟨df2, ops, Except.error e⟩ =>
                ⟨Except.error e, true, true, true, some df2, ops⟩
              | ⟨df2, ops, Except.ok _⟩ =>
                ⟨Except.ok (), true, true, true, some df2, ops⟩

/-- The cleaned batch a run hands to the Validator, when the steps
before validation all succeed. -/
def pipelineCleaned (re : RunEnv) : Option DataFrame :=
  match load_environment re.env with
  | Except.error _ => none
  | Except.ok envVars =>
    match re.downloadResult with
    | Except.error _ => none
    | Except.ok _ =>
      match create_db_engine envVars re.connectResult with
      | Except.error _ => none
      | Except.ok _ =>
        match re.csv with
        | Except.error _ => none
        | Except.ok raw =>
          match load_and_clean_data raw with
          | Except.error _ => none
          | Except.ok df => some df

/-- C6: the input `"01-03-2024"` parses to 1 March 2024 under the strict
day-month-year path and under the lenient day-first fallback path alike:
the two parse paths of the Loader agree on this input. -/
theorem strict_and_dayfirst_agree_on_01_03_2024 :
    parseStrictDMY "01-03-2024" = some ⟨2024, 3, 1⟩
    ∧ parseDayfirst "01-03-2024" = some ⟨2024, 3, 1⟩
    ∧ cellStrictParse (Value.str "01-03-2024")
        = some (Value.date ⟨2024, 3, 1⟩)
    ∧ cellCoerceParse (Value.str "01-03-2024") = Value.date ⟨2024, 3, 1⟩ := by
  refine ⟨?_, ?_, ?_, ?_⟩ <;> decide

/-! ## List helper lemmas -/

lemma colIdxH_lt_length {hdr : List Col} {name : String} {i : Nat}
    (h : colIdxH hdr name = some i) : i < hdr.length := by
  induction hdr generalizing i with
  | nil => simp [colIdxH] at h
  | cons c t ih =>
    simp only [colIdxH] at h
    by_cases hc : (c.name == name) = true
    · rw [if_pos hc] at h
      injection h with h
      subst h
      exact Nat.succ_pos t.length
    · rw [if_neg hc] at h
      cases hj : colIdxH t name with
      | none => rw [hj] at h; simp at h
      | some j =>
        rw [hj] at h
        simp at h
        have := ih hj
        simp only [List.length_cons]
        omega

lemma colIdxH_congr_names {hdr hdr' : List Col} {name : String}
    (h : hdr.map Col.name = hdr'.map Col.name) :
    colIdxH hdr name = colIdxH hdr' name := by
  induction hdr generalizing hdr' with
  | nil =>
    cases hdr' with
    | nil => rfl
    | cons c t => simp at h
  | cons c t ih =>
    cases hdr' with
    | nil => simp at h
    | cons c' t' =>
      simp only [List.map_cons, List.cons.injEq] at h
      obtain ⟨h1, h2⟩ := h
      simp [colIdxH, h1, ih h2]

lemma setDtypeAt_map_name (hdr : List Col) (i : Nat) (dt : Dtype) :
    (setDtypeAt hdr i dt).map Col.name = hdr.map Col.name := by
  induction hdr generalizing i with
  | nil => rfl
  | cons c t ih =>
    cases i with
    | zero => rfl
    | succ n =>
      show (c :: setDtypeAt t n dt).map Col.name = (c :: t).map Col.name
      rw [List.map_cons, List.map_cons, ih n]

lemma setDtypeAt_length (hdr : List Col) (i : Nat) (dt : Dtype) :
    (setDtypeAt hdr i dt).length = hdr.length := by
  simp [setDtypeAt]

lemma setDtypeAt_getD_self {hdr : List Col} {i : Nat} (dt : Dtype)
    (h : i < hdr.length) :
    (setDtypeAt hdr i dt).getD i default
      = ⟨(hdr.getD i default).name, dt⟩ := by
  induction hdr generalizing i with
  | nil => simp at h
  | cons c t ih =>
    cases i with
    | zero => rfl
    | succ n =>
      show (setDtypeAt t n dt).getD n default = _
      exact ih (by simpa using h)

lemma getD_set_self {α : Type} {l : List α} {i : Nat} (v d : α)
    (h : i < l.length) : (l.set i v).getD i d = v := by
  induction l generalizing i with
  | nil => simp at h
  | cons a t ih =>
    cases i with
    | zero => rfl
    | succ n =>
      show (t.set n v).getD n d = v
      exact ih (by simpa using h)

lemma zipWith_getD {α β γ : Type} (f : α → β → γ) (da : α) (db : β) (dg : γ) :
    ∀ (a : List α) (b : List β) (j : Nat), j < a.length → j < b.length →
      (List.zipWith f a b).getD j dg = f (a.getD j da) (b.getD j db) := by
  intro a
  induction a with
  | nil => intro b j h1 h2; simp at h1
  | cons x t ih =>
    intro b j h1 h2
    cases b with
    | nil => simp at h2
    | cons y u =>
      cases j with
      | zero => rfl
      | succ n =>
        show (List.zipWith f t u).getD n dg = f (t.getD n da) (u.getD n db)
        exact ih u n (by simpa using h1) (by simpa using h2)

/-! ## Cleaner structure lemmas -/

/-- On any frame whose `date` column resolves to index `i`,
`dropMissingDates` keeps the header and filters the rows on a
non-missing `date` (when no date is missing the conditional skips the
`dropna`, which then filters nothing). -/
lemma dropMissingDates_eq {hdr : List Col} {rows : List (List Value)} {i : Nat}
    (hidx : colIdxH hdr "date" = some i) :
    dropMissingDates ⟨hdr, rows⟩
      = Except.ok ⟨hdr, rows.filter (fun r => !rowDateMissing i r)⟩ := by
  simp only [dropMissingDates, colIdx, hidx]
  by_cases hdrop : (rows.filter (fun r => rowDateMissing i r)).length > 0
  · rw [if_pos hdrop]
  · rw [if_neg hdrop]
    have hzero : (rows.filter (fun r => rowDateMissing i r)).length = 0 := by
      omega
    have hempty : rows.filter (fun r => rowDateMissing i r) = [] :=
      List.length_eq_zero.mp hzero
    have hkeep : rows.filter (fun r => !rowDateMissing i r) = rows := by
      apply List.filter_eq_self.mpr
      intro r hr
      have := List.filter_eq_nil_iff.mp hempty r hr
      simpa using this
    rw [hkeep]

/-- What a successful `load_and_clean_data` run produces: some date
column index `i`, one of the two parse paths `f`, the header with the
`date` dtype set to `datetime64`, and exactly the input rows mapped
through parse-then-fill and filtered on a non-missing date. -/
lemma load_and_clean_shape {df0 df' : DataFrame}
    (h : load_and_clean_data df0 = Except.ok df') :
    ∃ i f, colIdx (normalizeColumns df0) "date" = some i
      ∧ (f = strictCell ∨ f = cellCoerceParse)
      ∧ df'.header = setDtypeAt (normalizeColumns df0).header i Dtype.datetime64
      ∧ df'.rows = ((normalizeColumns df0).rows.map
          (fun r => fillRow df'.header (r.set i (f (r.getD i Value.na))))).filter
          (fun r => !rowDateMissing i r) := by
  cases hp : parseDateColumn (normalizeColumns df0) with
  | error e => simp [load_and_clean_data, hp] at h
  | ok df2 =>
    simp only [load_and_clean_data, hp] at h
    cases hidx : colIdx (normalizeColumns df0) "date" with
    | none => simp [parseDateColumn, hidx] at hp
    | some i =>
      simp only [parseDateColumn, hidx] at hp
      have hnames : colIdxH
          (setDtypeAt (normalizeColumns df0).header i Dtype.datetime64) "date"
          = some i := by
        rw [colIdxH_congr_names
          (setDtypeAt_map_name (normalizeColumns df0).header i Dtype.datetime64)]
        exact hidx
      split at hp
      · injection hp with hp2
        refine ⟨i, strictCell, rfl, Or.inl rfl, ?_⟩
        subst hp2
        simp only [fillNumericNa] at h
        rw [dropMissingDates_eq hnames] at h
        injection h with h
        subst h
        refine ⟨rfl, ?_⟩
        simp only [List.map_map]
        rfl
      · injection hp with hp2
        refine ⟨i, cellCoerceParse, rfl, Or.inr rfl, ?_⟩
        subst hp2
        simp only [fillNumericNa] at h
        rw [dropMissingDates_eq hnames] at h
        injection h with h
        subst h
        refine ⟨rfl, ?_⟩
        simp only [List.map_map]
        rfl

lemma fillRow_getD {hdr : List Col} {r : List Value} {j : Nat}
    (h1 : j < hdr.length) (h2 : j < r.length) :
    (fillRow hdr r).getD j Value.na
      = fillCell (hdr.getD j default).dtype (r.getD j Value.na) := by
  unfold fillRow
  rw [zipWith_getD (fun c v => fillCell c.dtype v) default Value.na Value.na
    hdr r j h1 h2]

lemma fillCell_numeric_ne_na {dt : Dtype} (hdt : isNumericDtype dt = true)
    (v : Value) : (fillCell dt v == Value.na) = false := by
  by_cases hv : (v == Value.na) = true
  · have hfc : fillCell dt v = zeroOf dt := by
      simp [fillCell, hdt, hv]
    rw [hfc]
    cases dt with
    | int64 => decide
    | float64 => decide
    | datetime64 => simp [isNumericDtype] at hdt
    | object => simp [isNumericDtype] at hdt
  · have hfc : fillCell dt v = v := by
      simp [fillCell, hv]
    rw [hfc]
    simpa using hv

lemma fillCell_not_numeric {dt : Dtype} (hdt : isNumericDtype dt = false)
    (v : Value) : fillCell dt v = v := by
  simp [fillCell, hdt]

/-- C2: for every input batch, after `load_and_clean_data` returns, no
remaining row has a missing (unparseable) value in the `date` column:
rows whose date is missing after parsing are dropped before the batch
is returned. -/
theorem cleaner_output_has_no_missing_dates {df0 df' : DataFrame}
    (h : load_and_clean_data df0 = Except.ok df') :
    ∃ i, colIdx df' "date" = some i
      ∧ df'.rows.all (fun r => !(r.getD i Value.na == Value.na)) = true := by
  obtain ⟨i, f, hidx, hf, hhdr, hrows⟩ := load_and_clean_shape h
  refine ⟨i, ?_, ?_⟩
  · unfold colIdx
    rw [hhdr]
    rw [colIdxH_congr_names (setDtypeAt_map_name _ i Dtype.datetime64)]
    exact hidx
  · rw [hrows, List.all_eq_true]
    intro r hr
    have := List.of_mem_filter hr
    simpa [rowDateMissing] using this

/-- C2 witness: a concrete two-row batch; the row with the unparseable
date is dropped and the surviving row has a parsed date. -/
theorem cleaner_output_has_no_missing_dates_witness :
    load_and_clean_data
        ⟨[⟨"date", Dtype.object⟩, ⟨"store_number", Dtype.int64⟩],
         [[Value.str "01-03-2024", Value.int 1], [Value.na, Value.int 2]]⟩
      = Except.ok
        ⟨[⟨"date", Dtype.datetime64⟩, ⟨"store_number", Dtype.int64⟩],
         [[Value.date ⟨2024, 3, 1⟩, Value.int 1]]⟩
    ∧ ∃ i, colIdx
        (⟨[⟨"date", Dtype.datetime64⟩, ⟨"store_number", Dtype.int64⟩],
          [[Value.date ⟨2024, 3, 1⟩, Value.int 1]]⟩ : DataFrame) "date" = some i
      ∧ ((⟨[⟨"date", Dtype.datetime64⟩, ⟨"store_number", Dtype.int64⟩],
          [[Value.date ⟨2024, 3, 1⟩, Value.int 1]]⟩ : DataFrame)).rows.all
          (fun r => !(r.getD i Value.na == Value.na)) = true :=
  ⟨by rfl,
   @cleaner_output_has_no_missing_dates
     ⟨[⟨"date", Dtype.object⟩, ⟨"store_number", Dtype.int64⟩],
      [[Value.str "01-03-2024", Value.int 1], [Value.na, Value.int 2]]⟩
     ⟨[⟨"date", Dtype.datetime64⟩, ⟨"store_number", Dtype.int64⟩],
      [[Value.date ⟨2024, 3, 1⟩, Value.int 1]]⟩
     (by rfl)⟩

/-- C3: for every (rectangular) input batch, after `load_and_clean_data`
returns, every numeric (`int64`/`float64`) column of the result contains
no missing value: `fillna(0)` replaced each missing cell with zero. -/
theorem cleaner_numeric_columns_filled {df0 df' : DataFrame}
    (hrect : df0.rows.all (fun r => r.length == df0.header.length) = true)
    (h : load_and_clean_data df0 = Except.ok df')
    (j : Nat)
    (hj : isNumericDtype (df'.header.getD j default).dtype = true) :
    df'.rows.all (fun r => !(r.getD j Value.na == Value.na)) = true := by
  obtain ⟨i, f, hidx, hf, hhdr, hrows⟩ := load_and_clean_shape h
  have hjlt : j < df'.header.length := by
    by_contra hge
    push_neg at hge
    rw [List.getD_eq_default _ _ hge] at hj
    exact absurd hj (by decide)
  have hhdrlen : df'.header.length = df0.header.length := by
    rw [hhdr, setDtypeAt_length]
    simp [normalizeColumns]
  rw [hrows]
  simp only [List.all_eq_true]
  intro r hr
  have hr' := List.mem_of_mem_filter hr
  obtain ⟨r0, hr0mem, hr0eq⟩ := List.mem_map.mp hr'
  subst hr0eq
  have hmem0 : r0 ∈ df0.rows := hr0mem
  have hlen0 : r0.length = df0.header.length := by
    simpa using List.all_eq_true.mp hrect r0 hmem0
  have hjr : j < (r0.set i (f (r0.getD i Value.na))).length := by
    rw [List.length_set]
    omega
  rw [fillRow_getD hjlt hjr, fillCell_numeric_ne_na hj]
  rfl

/-- C3 witness: a rectangular batch whose `weekly_sales` column has a
missing value; after cleaning, the numeric column has no missing cell
(the hole became `0`). -/
theorem cleaner_numeric_columns_filled_witness :
    ((⟨[⟨"date", Dtype.object⟩, ⟨"weekly_sales", Dtype.float64⟩],
       [[Value.str "01-03-2024", Value.float 5], [Value.str "02-03-2024", Value.na]]⟩
      : DataFrame)).rows.all (fun r => r.length ==
        ((⟨[⟨"date", Dtype.object⟩, ⟨"weekly_sales", Dtype.float64⟩],
          [[Value.str "01-03-2024", Value.float 5], [Value.str "02-03-2024", Value.na]]⟩
         : DataFrame)).header.length) = true
    ∧ load_and_clean_data
        ⟨[⟨"date", Dtype.object⟩, ⟨"weekly_sales", Dtype.float64⟩],
         [[Value.str "01-03-2024", Value.float 5], [Value.str "02-03-2024", Value.na]]⟩
      = Except.ok
        ⟨[⟨"date", Dtype.datetime64⟩, ⟨"weekly_sales", Dtype.float64⟩],
         [[Value.date ⟨2024, 3, 1⟩, Value.float 5],
          [Value.date ⟨2024, 3, 2⟩, Value.float 0]]⟩
    ∧ ((⟨[⟨"date", Dtype.datetime64⟩, ⟨"weekly_sales", Dtype.float64⟩],
        [[Value.date ⟨2024, 3, 1⟩, Value.float 5],
         [Value.date ⟨2024, 3, 2⟩, Value.float 0]]⟩ : DataFrame)).rows.all
        (fun r => !(r.getD 1 Value.na == Value.na)) = true :=
  ⟨by decide, by rfl,
   @cleaner_numeric_columns_filled
     ⟨[⟨"date", Dtype.object⟩, ⟨"weekly_sales", Dtype.float64⟩],
      [[Value.str "01-03-2024", Value.float 5], [Value.str "02-03-2024", Value.na]]⟩
     ⟨[⟨"date", Dtype.datetime64⟩, ⟨"weekly_sales", Dtype.float64⟩],
      [[Value.date ⟨2024, 3, 1⟩, Value.float 5],
       [Value.date ⟨2024, 3, 2⟩, Value.float 0]]⟩
     (by decide) (by rfl) 1 (by decide)⟩

/-- C7: the Cleaner fills missing numeric cells first and only then
drops rows, and it removes no row other than those with a missing date:
the output rows are exactly the (parse-then-fill transformed) input
rows filtered on a non-missing date, and every input row whose date
parsed successfully appears (transformed) in the output. -/
theorem cleaner_drops_only_missing_date_rows {df0 df' : DataFrame}
    (h : load_and_clean_data df0 = Except.ok df') :
    ∃ i f, colIdx (normalizeColumns df0) "date" = some i
      ∧ (f = strictCell ∨ f = cellCoerceParse)
      ∧ df'.rows = ((normalizeColumns df0).rows.map
          (fun r => fillRow df'.header (r.set i (f (r.getD i Value.na))))).filter
          (fun r => !(r.getD i Value.na == Value.na))
      ∧ ∀ r ∈ (normalizeColumns df0).rows,
          (f (r.getD i Value.na) == Value.na) = false →
            fillRow df'.header (r.set i (f (r.getD i Value.na))) ∈ df'.rows := by
  obtain ⟨i, f, hidx, hf, hhdr, hrows⟩ := load_and_clean_shape h
  simp only [rowDateMissing] at hrows
  refine ⟨i, f, hidx, hf, hrows, ?_⟩
  intro r hr hfne
  by_cases hlen : i < r.length
  · have hihdr : i < df'.header.length := by
      rw [hhdr, setDtypeAt_length]
      exact colIdxH_lt_length hidx
    have hirr : i < (r.set i (f (r.getD i Value.na))).length := by
      rw [List.length_set]
      exact hlen
    have hcell : (fillRow df'.header (r.set i (f (r.getD i Value.na)))).getD i Value.na
        = f (r.getD i Value.na) := by
      rw [fillRow_getD hihdr hirr]
      have hdt : (df'.header.getD i default).dtype = Dtype.datetime64 := by
        rw [hhdr, setDtypeAt_getD_self Dtype.datetime64 (colIdxH_lt_length hidx)]
      rw [hdt, getD_set_self _ _ hlen]
      exact fillCell_not_numeric (by decide) _
    rw [hrows]
    refine List.mem_filter.mpr ⟨List.mem_map.mpr ⟨r, hr, rfl⟩, ?_⟩
    have hpred : ((fillRow df'.header
        (r.set i (f (r.getD i Value.na)))).getD i Value.na == Value.na) = false := by
      rw [hcell]
      exact hfne
    simpa using hpred
  · exfalso
    push_neg at hlen
    have hna : r.getD i Value.na = Value.na := List.getD_eq_default _ _ hlen
    rw [hna] at hfne
    cases hf with
    | inl h1 => rw [h1] at hfne; exact absurd hfne (by decide)
    | inr h2 => rw [h2] at hfne; exact absurd hfne (by decide)

/-- C7 witness: a batch where one date fails to parse; the lenient path
is taken, the unparseable row is dropped and the parsed row survives. -/
theorem cleaner_drops_only_missing_date_rows_witness :
    load_and_clean_data
        ⟨[⟨"date", Dtype.object⟩, ⟨"store_number", Dtype.int64⟩],
         [[Value.str "05-03-2024", Value.int 7], [Value.str "xx", Value.int 8]]⟩
      = Except.ok
        ⟨[⟨"date", Dtype.datetime64⟩, ⟨"store_number", Dtype.int64⟩],
         [[Value.date ⟨2024, 3, 5⟩, Value.int 7]]⟩
    ∧ ∃ i f, colIdx (normalizeColumns
          ⟨[⟨"date", Dtype.object⟩, ⟨"store_number", Dtype.int64⟩],
           [[Value.str "05-03-2024", Value.int 7], [Value.str "xx", Value.int 8]]⟩)
          "date" = some i
      ∧ (f = strictCell ∨ f = cellCoerceParse)
      ∧ ((⟨[⟨"date", Dtype.datetime64⟩, ⟨"store_number", Dtype.int64⟩],
          [[Value.date ⟨2024, 3, 5⟩, Value.int 7]]⟩ : DataFrame)).rows
        = (((normalizeColumns
            ⟨[⟨"date", Dtype.object⟩, ⟨"store_number", Dtype.int64⟩],
             [[Value.str "05-03-2024", Value.int 7], [Value.str "xx", Value.int 8]]⟩)).rows.map
            (fun r => fillRow ((⟨[⟨"date", Dtype.datetime64⟩, ⟨"store_number", Dtype.int64⟩],
              [[Value.date ⟨2024, 3, 5⟩, Value.int 7]]⟩ : DataFrame)).header
              (r.set i (f (r.getD i Value.na))))).filter
            (fun r => !(r.getD i Value.na == Value.na))
      ∧ ∀ r ∈ ((normalizeColumns
            ⟨[⟨"date", Dtype.object⟩, ⟨"store_number", Dtype.int64⟩],
             [[Value.str "05-03-2024", Value.int 7], [Value.str "xx", Value.int 8]]⟩)).rows,
          (f (r.getD i Value.na) == Value.na) = false →
            fillRow ((⟨[⟨"date", Dtype.datetime64⟩, ⟨"store_number", Dtype.int64⟩],
              [[Value.date ⟨2024, 3, 5⟩, Value.int 7]]⟩ : DataFrame)).header
              (r.set i (f (r.getD i Value.na))) ∈
              ((⟨[⟨"date", Dtype.datetime64⟩, ⟨"store_number", Dtype.int64⟩],
                [[Value.date ⟨2024, 3, 5⟩, Value.int 7]]⟩ : DataFrame)).rows :=
  ⟨by rfl,
   @cleaner_drops_only_missing_date_rows
     ⟨[⟨"date", Dtype.object⟩, ⟨"store_number", Dtype.int64⟩],
      [[Value.str "05-03-2024", Value.int 7], [Value.str "xx", Value.int 8]]⟩
     ⟨[⟨"date", Dtype.datetime64⟩, ⟨"store_number", Dtype.int64⟩],
      [[Value.date ⟨2024, 3, 5⟩, Value.int 7]]⟩
     (by rfl)⟩

/-! ## Validator lemmas -/

lemma countLtZero_ok {vs : List Value} (h : vs.all comparableToZero = true) :
    countLtZero vs = Except.ok (vs.filter ltZeroBool).length := by
  induction vs with
  | nil => rfl
  | cons v t ih =>
    simp only [List.all_cons, Bool.and_eq_true] at h
    obtain ⟨hv, ht⟩ := h
    simp only [countLtZero, hv, if_true, ih ht]
    by_cases hneg : ltZeroBool v = true
    · simp [List.filter_cons, hneg]
    · simp [List.filter_cons, hneg]

/-- C4: on a batch with the required columns, a datetime `date` column,
an integer `store_number` column, and a comparable `weekly_sales`
column, `validate_data` raises if and only if some `store_number` value
is zero or negative. -/
theorem validate_data_error_iff_nonpositive_store (df : DataFrame) (now : Date)
    (hreq : requiredColumns.all
      (fun c => df.header.any (fun col => col.name == c)) = true)
    (hdate : colDtype df "date" = some Dtype.datetime64)
    (hstore : colDtype df "store_number" = some Dtype.int64)
    (hws : (colCells df "weekly_sales").all comparableToZero = true) :
    (∃ e, validate_data df now = Except.error e)
      ↔ ∃ n : Int, Value.int n ∈ colCells df "store_number" ∧ n ≤ 0 := by
  have hmiss : requiredColumns.filter
      (fun c => !(df.header.any (fun col => col.name == c))) = [] := by
    apply List.filter_eq_nil_iff.mpr
    intro c hc
    have := List.all_eq_true.mp hreq c hc
    simp [this]
  by_cases hany : (colCells df "store_number").any valueLeZeroInt = true
  · have hval : validate_data df now = Except.error "Store numbers must be positive" := by
      simp [validate_data, hmiss, hdate, hstore, hany]
    rw [hval]
    constructor
    · intro _
      obtain ⟨v, hv, hvle⟩ := List.any_eq_true.mp hany
      cases v with
      | int n =>
        refine ⟨n, hv, ?_⟩
        simpa [valueLeZeroInt] using hvle
      | na => simp [valueLeZeroInt] at hvle
      | float q => simp [valueLeZeroInt] at hvle
      | str s => simp [valueLeZeroInt] at hvle
      | date d => simp [valueLeZeroInt] at hvle
    · intro _
      exact ⟨"Store numbers must be positive", rfl⟩
  · have hany' : (colCells df "store_number").any valueLeZeroInt = false := by
      simpa using hany
    have hok := countLtZero_ok hws
    have hvalok : ∃ ws, validate_data df now = Except.ok ws := by
      simp [validate_data, hmiss, hdate, hstore, hany', hok]
    obtain ⟨ws, hws2⟩ := hvalok
    rw [hws2]
    constructor
    · rintro ⟨e, he⟩
      exact absurd he (by simp)
    · rintro ⟨n, hmem, hle⟩
      exfalso
      have hco : (colCells df "store_number").any valueLeZeroInt = true := by
        apply List.any_eq_true.mpr
        refine ⟨Value.int n, hmem, ?_⟩
        simpa [valueLeZeroInt] using hle
      rw [hco] at hany'
      cases hany'

/-- C4 witness: a batch with a `store_number = -3` row makes the
Validator raise. -/
theorem validate_data_error_iff_nonpositive_store_witness :
    requiredColumns.all (fun c =>
      ((⟨[⟨"store_number", Dtype.int64⟩, ⟨"date", Dtype.datetime64⟩,
          ⟨"weekly_sales", Dtype.float64⟩],
         [[Value.int (-3), Value.date ⟨2024, 3, 1⟩, Value.float 100]]⟩
        : DataFrame)).header.any (fun col => col.name == c)) = true
    ∧ ∃ e, validate_data
        ⟨[⟨"store_number", Dtype.int64⟩, ⟨"date", Dtype.datetime64⟩,
          ⟨"weekly_sales", Dtype.float64⟩],
         [[Value.int (-3), Value.date ⟨2024, 3, 1⟩, Value.float 100]]⟩
        ⟨2025, 1, 1⟩ = Except.error e :=
  ⟨by decide,
   (validate_data_error_iff_nonpositive_store
     ⟨[⟨"store_number", Dtype.int64⟩, ⟨"date", Dtype.datetime64⟩,
       ⟨"weekly_sales", Dtype.float64⟩],
      [[Value.int (-3), Value.date ⟨2024, 3, 1⟩, Value.float 100]]⟩
     ⟨2025, 1, 1⟩ (by decide) (by decide) (by decide) (by decide)).mpr
     ⟨-3, by decide, by decide⟩⟩

lemma mainRun_persistInvoked_of_ok {re : RunEnv} {df : DataFrame}
    (hc : pipelineCleaned re = some df)
    (hv : ∃ ws, validate_data df re.now = Except.ok ws) :
    (mainRun re).persistInvoked = true := by
  obtain ⟨ws, hv⟩ := hv
  cases h1 : load_environment re.env with
  | error e => simp [pipelineCleaned, h1] at hc
  | ok envVars =>
    cases h2 : re.downloadResult with
    | error e => simp [pipelineCleaned, h1, h2] at hc
    | ok p =>
      cases h3 : create_db_engine envVars re.connectResult with
      | error e => simp [pipelineCleaned, h1, h2, h3] at hc
      | ok u =>
        cases h4 : re.csv with
        | error e => simp [pipelineCleaned, h1, h2, h3, h4] at hc
        | ok raw =>
          cases h5 : load_and_clean_data raw with
          | error e => simp [pipelineCleaned, h1, h2, h3, h4, h5] at hc
          | ok dfc =>
            have hdf : dfc = df := by
              simpa [pipelineCleaned, h1, h2, h3, h4, h5] using hc
            subst hdf
            cases h6 : save_to_database dfc "best_buy_sales" re.now
                (lookupEnv re.env "INPUT_FILE") re.dbFail with
            | mk df2 ops res =>
              cases res with
              | error e => simp [mainRun, h1, h2, h3, h4, h5, hv, h6]
              | ok u2 => simp [mainRun, h1, h2, h3, h4, h5, hv, h6]

/-- C5: on a batch that passes all fatal checks (required columns,
datetime `date`, integer and positive `store_number`, comparable
`weekly_sales`), a negative `weekly_sales` value does not make
`validate_data` raise: it returns with a negative-sales warning of
positive count, and any pipeline run that reaches validation with this
batch goes on to invoke the Persister. -/
theorem validate_data_negative_sales_warning_only (df : DataFrame) (now : Date)
    (hreq : requiredColumns.all
      (fun c => df.header.any (fun col => col.name == c)) = true)
    (hdate : colDtype df "date" = some Dtype.datetime64)
    (hstore : colDtype df "store_number" = some Dtype.int64)
    (hpos : (colCells df "store_number").any valueLeZeroInt = false)
    (hws : (colCells df "weekly_sales").all comparableToZero = true)
    (hneg : (colCells df "weekly_sales").any ltZeroBool = true) :
    (∃ ws, validate_data df now = Except.ok ws
        ∧ ∃ k, 0 < k ∧ LogWarning.negativeSales k ∈ ws)
    ∧ ∀ re : RunEnv, pipelineCleaned re = some df → re.now = now →
        (mainRun re).persistInvoked = true := by
  have hmiss : requiredColumns.filter
      (fun c => !(df.header.any (fun col => col.name == c))) = [] := by
    apply List.filter_eq_nil_iff.mpr
    intro c hc
    have := List.all_eq_true.mp hreq c hc
    simp [this]
  have hok := countLtZero_ok hws
  have hcount : 0 < ((colCells df "weekly_sales").filter ltZeroBool).length := by
    obtain ⟨v, hv, hvneg⟩ := List.any_eq_true.mp hneg
    have hmem : v ∈ (colCells df "weekly_sales").filter ltZeroBool :=
      List.mem_filter.mpr ⟨hv, hvneg⟩
    exact List.length_pos.mpr (List.ne_nil_of_mem hmem)
  have hval : validate_data df now = Except.ok
      ([LogWarning.negativeSales
          ((colCells df "weekly_sales").filter ltZeroBool).length]
        ++ (if ((colCells df "date").filter (dateGtNow now)).length > 0 then
              [LogWarning.futureDates
                ((colCells df "date").filter (dateGtNow now)).length]
            else [])) := by
    simp only [validate_data, hmiss, hdate, hstore, hpos, hok]
    simp [hcount]
  constructor
  · refine ⟨_, hval,
      ((colCells df "weekly_sales").filter ltZeroBool).length, hcount, ?_⟩
    exact List.mem_append_left _ (by simp)
  · intro re hc hnow
    apply mainRun_persistInvoked_of_ok hc
    rw [hnow]
    exact ⟨_, hval⟩

/-- C5 witness: a fully concrete run whose cleaned batch holds a
`weekly_sales = -150` row; validation returns with the warning and the
run reaches the Persister. -/
theorem validate_data_negative_sales_warning_only_witness :
    (∃ ws, validate_data
        ⟨[⟨"store_number", Dtype.int64⟩, ⟨"date", Dtype.datetime64⟩,
          ⟨"weekly_sales", Dtype.float64⟩],
         [[Value.int 1, Value.date ⟨2024, 3, 1⟩, Value.float (-150)]]⟩
        ⟨2025, 1, 1⟩ = Except.ok ws
      ∧ ∃ k, 0 < k ∧ LogWarning.negativeSales k ∈ ws)
    ∧ (mainRun
        ⟨[("DB_HOST", "h"), ("DB_USER", "u"), ("DB_PASSWORD", "p"),
          ("DB_NAME", "n"), ("DB_PORT", "3306"), ("INPUT_FILE", "f.csv")],
         Except.ok "path", Except.ok (),
         Except.ok ⟨[⟨"store_number", Dtype.int64⟩, ⟨"date", Dtype.object⟩,
            ⟨"weekly_sales", Dtype.float64⟩],
           [[Value.int 1, Value.str "01-03-2024", Value.float (-150)]]⟩,
         DbFail.ok, ⟨2025, 1, 1⟩⟩).persistInvoked = true :=
  ⟨(validate_data_negative_sales_warning_only
      ⟨[⟨"store_number", Dtype.int64⟩, ⟨"date", Dtype.datetime64⟩,
        ⟨"weekly_sales", Dtype.float64⟩],
       [[Value.int 1, Value.date ⟨2024, 3, 1⟩, Value.float (-150)]]⟩
      ⟨2025, 1, 1⟩ (by decide) (by decide) (by decide) (by decide)
      (by decide) (by decide)).1,
   (validate_data_negative_sales_warning_only
      ⟨[⟨"store_number", Dtype.int64⟩, ⟨"date", Dtype.datetime64⟩,
        ⟨"weekly_sales", Dtype.float64⟩],
       [[Value.int 1, Value.date ⟨2024, 3, 1⟩, Value.float (-150)]]⟩
      ⟨2025, 1, 1⟩ (by decide) (by decide) (by decide) (by decide)
      (by decide) (by decide)).2
     ⟨[("DB_HOST", "h"), ("DB_USER", "u"), ("DB_PASSWORD", "p"),
       ("DB_NAME", "n"), ("DB_PORT", "3306"), ("INPUT_FILE", "f.csv")],
      Except.ok "path", Except.ok (),
      Except.ok ⟨[⟨"store_number", Dtype.int64⟩, ⟨"date", Dtype.object⟩,
         ⟨"weekly_sales", Dtype.float64⟩],
        [[Value.int 1, Value.str "01-03-2024", Value.float (-150)]]⟩,
      DbFail.ok, ⟨2025, 1, 1⟩⟩ (by rfl) rfl⟩

/-- C8: whenever a run acquires the database engine (`create_db_engine`
returned), the `finally` block disposes it before the run terminates —
on the success path and on every later failure path alike. -/
theorem engine_disposed_on_every_exit (re : RunEnv)
    (h : (mainRun re).engineAcquired = true) :
    (mainRun re).engineDisposed = true := by
  cases h1 : load_environment re.env with
  | error e => simp [mainRun, h1] at h
  | ok envVars =>
    cases h2 : re.downloadResult with
    | error e => simp [mainRun, h1, h2] at h
    | ok p =>
      cases h3 : create_db_engine envVars re.connectResult with
      | error e => simp [mainRun, h1, h2, h3] at h
      | ok u =>
        cases h4 : re.csv with
        | error e => simp [mainRun, h1, h2, h3, h4]
        | ok raw =>
          cases h5 : load_and_clean_data raw with
          | error e => simp [mainRun, h1, h2, h3, h4, h5]
          | ok df =>
            cases h6 : validate_data df re.now with
            | error e => simp [mainRun, h1, h2, h3, h4, h5, h6]
            | ok ws =>
              cases h7 : save_to_database df "best_buy_sales" re.now
                  (lookupEnv re.env "INPUT_FILE") re.dbFail with
              | mk df2 ops res =>
                cases res with
                | error e => simp [mainRun, h1, h2, h3, h4, h5, h6, h7]
                | ok u2 => simp [mainRun, h1, h2, h3, h4, h5, h6, h7]

/-- C8 witness: a run that acquires the engine and then fails reading
the CSV still ends with the engine disposed. -/
theorem engine_disposed_on_every_exit_witness :
    (mainRun
      ⟨[("DB_HOST", "h"), ("DB_USER", "u"), ("DB_PASSWORD", "p"),
        ("DB_NAME", "n"), ("DB_PORT", "3306"), ("INPUT_FILE", "f.csv")],
       Except.ok "path", Except.ok (),
       Except.error "read failed", DbFail.ok, ⟨2025, 1, 1⟩⟩).engineAcquired = true
    ∧ (mainRun
      ⟨[("DB_HOST", "h"), ("DB_USER", "u"), ("DB_PASSWORD", "p"),
        ("DB_NAME", "n"), ("DB_PORT", "3306"), ("INPUT_FILE", "f.csv")],
       Except.ok "path", Except.ok (),
       Except.error "read failed", DbFail.ok, ⟨2025, 1, 1⟩⟩).engineDisposed = true :=
  ⟨by decide,
   engine_disposed_on_every_exit
     ⟨[("DB_HOST", "h"), ("DB_USER", "u"), ("DB_PASSWORD", "p"),
       ("DB_NAME", "n"), ("DB_PORT", "3306"), ("INPUT_FILE", "f.csv")],
      Except.ok "path", Except.ok (),
      Except.error "read failed", DbFail.ok, ⟨2025, 1, 1⟩⟩ (by decide)⟩

lemma colIdxH_append_none {l1 l2 : List Col} {name : String}
    (ha : colIdxH l1 name = none) (hb : colIdxH l2 name = none) :
    colIdxH (l1 ++ l2) name = none := by
  induction l1 with
  | nil => simpa using hb
  | cons c t ih =>
    show (if (c.name == name) = true then some 0
          else (colIdxH (t ++ l2) name).map (fun x => x + 1)) = none
    simp only [colIdxH] at ha
    by_cases hc : (c.name == name) = true
    · rw [if_pos hc] at ha
      cases ha
    · rw [if_neg hc] at ha
      rw [if_neg hc]
      have ht : colIdxH t name = none := by
        cases hcj : colIdxH t name with
        | none => rfl
        | some j => rw [hcj] at ha; simp at ha
      rw [ih ht]
      rfl

lemma stampProvenance_eq {df : DataFrame} (now : Date) (src : Option String)
    (h1 : colIdx df "loaded_at" = none)
    (h2 : colIdx df "source_file" = none) :
    stampProvenance df now src
      = ⟨df.header ++ [⟨"loaded_at", Dtype.datetime64⟩,
          ⟨"source_file", Dtype.object⟩],
         df.rows.map (fun r => r ++ [Value.date now,
           match src with
           | some s => Value.str s
           | none => Value.na])⟩ := by
  have h1' : colIdxH df.header "loaded_at" = none := h1
  have hfirst : addColumn df "loaded_at" Dtype.datetime64 (Value.date now)
      = ⟨df.header ++ [⟨"loaded_at", Dtype.datetime64⟩],
         df.rows.map (fun r => r ++ [Value.date now])⟩ := by
    simp [addColumn, colIdx, h1']
  have h2' : colIdxH df.header "source_file" = none := h2
  have hsecond : colIdxH (df.header ++ [(⟨"loaded_at", Dtype.datetime64⟩ : Col)])
      "source_file" = none :=
    colIdxH_append_none h2' (by rfl)
  unfold stampProvenance
  rw [hfirst]
  simp only [addColumn, colIdx, hsecond]
  refine congrArg₂ DataFrame.mk ?_ ?_
  · simp [List.append_assoc]
  · simp [List.map_map, Function.comp, List.append_assoc]

/-- C9: `save_to_database` mutates the batch it is handed in place:
in every run in which the schema-creation step succeeds (including runs
where the write itself then fails), the caller's dataframe afterwards
is its old self extended with the two provenance columns `loaded_at`
and `source_file` — all pre-existing columns and rows unchanged. -/
theorem save_to_database_mutates_caller (df : DataFrame) (tableName : String)
    (now : Date) (src : Option String) (fail : DbFail)
    (hfail : fail ≠ DbFail.atSchema)
    (h1 : colIdx df "loaded_at" = none)
    (h2 : colIdx df "source_file" = none) :
    (save_to_database df tableName now src fail).df
      = ⟨df.header ++ [⟨"loaded_at", Dtype.datetime64⟩,
          ⟨"source_file", Dtype.object⟩],
         df.rows.map (fun r => r ++ [Value.date now,
           match src with
           | some s => Value.str s
           | none => Value.na])⟩ := by
  rw [← stampProvenance_eq now src h1 h2]
  cases fail with
  | atSchema => exact absurd rfl hfail
  | ok => simp [save_to_database]
  | atWrite => simp [save_to_database]
  | tableMissing => simp [save_to_database]
  | atCount => simp [save_to_database]

/-- C9 witness: a one-column, one-row frame saved with a failing write;
the caller's frame has already gained the provenance columns. -/
theorem save_to_database_mutates_caller_witness :
    (save_to_database ⟨[⟨"store_number", Dtype.int64⟩], [[Value.int 1]]⟩
        "best_buy_sales" ⟨2025, 1, 2⟩ (some "f.csv") DbFail.atWrite).df
      = ⟨(⟨[⟨"store_number", Dtype.int64⟩], [[Value.int 1]]⟩ : DataFrame).header
            ++ [⟨"loaded_at", Dtype.datetime64⟩, ⟨"source_file", Dtype.object⟩],
         (⟨[⟨"store_number", Dtype.int64⟩], [[Value.int 1]]⟩ : DataFrame).rows.map
           (fun r => r ++ [Value.date ⟨2025, 1, 2⟩,
             match some "f.csv" with
             | some s => Value.str s
             | none => Value.na])⟩ :=
  save_to_database_mutates_caller
    ⟨[⟨"store_number", Dtype.int64⟩], [[Value.int 1]]⟩
    "best_buy_sales" ⟨2025, 1, 2⟩ (some "f.csv") DbFail.atWrite
    (by decide) (by decide) (by decide)

/-- C1: in every run of the Persister the schema-creation statement
addresses schema `retail_db_db` while the table write, the
table-existence check and the row-count query all address schema
`retail_db` — two different identifiers: the first trace entry is
always `CREATE SCHEMA IF NOT EXISTS retail_db_db` and every later
entry addresses `retail_db`. -/
theorem persister_schema_identifiers_differ (df : DataFrame)
    (tableName : String) (now : Date) (src : Option String) (fail : DbFail) :
    (save_to_database df tableName now src fail).ops.head?
        = some (DbOp.createSchema "retail_db_db")
    ∧ ((save_to_database df tableName now src fail).ops.tail.all
        (fun op => DbOp.schemaOf op == "retail_db")) = true
    ∧ (("retail_db_db" == "retail_db") = false) := by
  refine ⟨?_, ?_, by decide⟩ <;>
    cases fail <;> simp [save_to_database, DbOp.schemaOf]

lemma falsy_eq_decide (o : Option String) :
    falsy o = decide (o = none ∨ o = some "") := by
  cases o with
  | none => decide
  | some s =>
    cases s with
    | mk data =>
      cases data with
      | nil => decide
      | cons c cs =>
        have hs : (String.mk (c :: cs)) ≠ "" := by
          intro h2
          have h3 : c :: cs = ([] : List Char) := congrArg String.data h2
          simp at h3
        simp [falsy, hs]

lemma filter_map_fst (env : List (String × String)) (l : List String) :
    ((l.map (fun k => (k, lookupEnv env k))).filter (fun kv => falsy kv.2)).map
      (fun kv => kv.1)
    = l.filter (fun k => falsy (lookupEnv env k)) := by
  induction l with
  | nil => rfl
  | cons k t ih =>
    by_cases hk : falsy (lookupEnv env k) = true
    · simp [List.filter_cons, hk, ih]
    · have hk' : falsy (lookupEnv env k) = false := by simpa using hk
      simp [List.filter_cons, hk', ih]

/-- C10: `load_environment` treats a variable bound to the empty string
exactly like an absent one: whenever some required variable is unset or
empty it raises carrying the list of every such variable, and otherwise
it returns the full six-entry settings map. -/
theorem load_environment_treats_empty_as_missing (env : List (String × String)) :
    (load_environment env = Except.error (requiredVarNames.filter
        (fun k => decide (lookupEnv env k = none ∨ lookupEnv env k = some "")))
      ∧ requiredVarNames.filter
          (fun k => decide (lookupEnv env k = none ∨ lookupEnv env k = some ""))
        ≠ [])
    ∨ (load_environment env
        = Except.ok (requiredVarNames.map (fun k => (k, lookupEnv env k)))
      ∧ requiredVarNames.filter
          (fun k => decide (lookupEnv env k = none ∨ lookupEnv env k = some ""))
        = []) := by
  have hcong : requiredVarNames.filter (fun k => falsy (lookupEnv env k))
      = requiredVarNames.filter
        (fun k => decide (lookupEnv env k = none ∨ lookupEnv env k = some "")) := by
    apply List.filter_congr
    intro k hk
    exact falsy_eq_decide (lookupEnv env k)
  have hmv : ((requiredVarNames.map (fun k => (k, lookupEnv env k))).filter
      (fun kv => falsy kv.2)).map (fun kv => kv.1)
      = requiredVarNames.filter
        (fun k => decide (lookupEnv env k = none ∨ lookupEnv env k = some "")) := by
    rw [filter_map_fst env requiredVarNames, hcong]
  by_cases hc : requiredVarNames.filter
      (fun k => decide (lookupEnv env k = none ∨ lookupEnv env k = some "")) = []
  · right
    refine ⟨?_, hc⟩
    simp only [load_environment]
    rw [hmv, hc]
    rfl
  · left
    refine ⟨?_, hc⟩
    have hie : (requiredVarNames.filter
        (fun k => decide (lookupEnv env k = none ∨ lookupEnv env k = some ""))).isEmpty
        = false := by
      cases hq : requiredVarNames.filter
          (fun k => decide (lookupEnv env k = none ∨ lookupEnv env k = some "")) with
      | nil => exact absurd hq hc
      | cons a t => rfl
    simp only [load_environment]
    rw [hmv, hie]
    rfl
